import Mathlib

/-!
Verification of the OpenGL shader cache manager
(src/video_core/renderer_opengl/gl_shader_manager.cpp).

The C++ code is shallowly embedded: the two in-memory caches
(ShaderCache / ShaderDoubleCache) become pure state-passing functions over
association lists (mirroring the behaviour of std::unordered_map::emplace
and insert_or_assign), GL handles become naturals (0 = the null handle),
external collaborators (hash primitives, the source generators, the GL
program-binary loader and compiler) become explicit function parameters,
and the warm-up protocol LoadDiskCache becomes a fold over the raw entry
list that records every externally visible effect (invalidations, queueing,
injections, loadBinary calls, saves).
-/

namespace GLShaderManager

/-- First-match association-list lookup, the behaviour of
std::unordered_map::find for maps whose keys are never duplicated. -/
def assocFind {K V : Type} [DecidableEq K] (k : K) : List (K × V) → Option V
  | [] => none
  | (k', v) :: rest => if k = k' then some v else assocFind k rest

/-- std::unordered_map::insert_or_assign: replace the binding if the key is
present, otherwise append a fresh binding. -/
def insertOrAssign {K V : Type} [DecidableEq K] (k : K) (v : V) :
    List (K × V) → List (K × V)
  | [] => [(k, v)]
  | (k', v') :: rest =>
    if k = k' then (k, v) :: rest else (k', v') :: insertOrAssign k v rest

/-- OGLShaderStage: the object wrapping either a shader object or a linked
program object; for the cache behaviour only its GL handle is observable
(GetHandle in the source). The handle value 0 denotes the null object. -/
structure OGLShaderStage where
  handle : Nat
deriving DecidableEq, Repr

/-- State of the single-level ShaderCache template: the
unordered_map from key config to OGLShaderStage, plus instrumentation
mirroring the externally observable platform interaction (nextHandle models
the fresh nonzero handles the GL object creation calls return, compiles
counts stage Create calls, genCalls counts CodeGenerator invocations). -/
structure ShaderCacheState (K : Type) where
  shaders : List (K × OGLShaderStage)
  nextHandle : Nat
  compiles : Nat
  genCalls : Nat
deriving DecidableEq, Repr

/-- A freshly constructed ShaderCache: empty map; handles start at 1 since
GL object names are nonzero on success. -/
def ShaderCacheState.fresh (K : Type) : ShaderCacheState K :=
  { shaders := [], nextHandle := 1, compiles := 0, genCalls := 0 }

/-- ShaderCache::Get (gl_shader_manager.cpp lines 224-234): emplace the
config; on a fresh insertion run the code generator, compile the stage and
return the generated source, otherwise return the cached handle with no
source. -/
def ShaderCache.Get {K : Type} [DecidableEq K] (gen : K → String)
    (c : ShaderCacheState K) (config : K) :
    (Nat × Option String) × ShaderCacheState K :=
  match assocFind config c.shaders with
  | some stage => ((stage.handle, none), c)
  | none =>
    let code := gen config
    let stage : OGLShaderStage := { handle := c.nextHandle }
    ((stage.handle, some code),
     { shaders := c.shaders ++ [(config, stage)],
       nextHandle := c.nextHandle + 1,
       compiles := c.compiles + 1,
       genCalls := c.genCalls + 1 })

/-- ShaderCache::Inject (lines 236-244): emplace a pre-built stage under the
key, bypassing generation; emplace does not overwrite an existing entry. -/
def ShaderCache.Inject {K : Type} [DecidableEq K] (c : ShaderCacheState K)
    (key : K) (stage : OGLShaderStage) : ShaderCacheState K :=
  match assocFind key c.shaders with
  | some _ => c
  | none => { c with shaders := c.shaders ++ [(key, stage)] }

/-- State of the ShaderDoubleCache template: shader_map sends a key config
to a stage pointer (none = absent key; some none = cached null pointer for
a "no shader needed" miss; some (some src) = pointer to the shader_cache
entry keyed by generated source src), and shader_cache sends generated
source text to the owned stage. -/
structure ShaderDoubleCacheState (K : Type) where
  shader_map : List (K × Option String)
  shader_cache : List (String × OGLShaderStage)
  nextHandle : Nat
  compiles : Nat
  genCalls : Nat
deriving DecidableEq, Repr

/-- A freshly constructed ShaderDoubleCache. -/
def ShaderDoubleCacheState.fresh (K : Type) : ShaderDoubleCacheState K :=
  { shader_map := [], shader_cache := [], nextHandle := 1, compiles := 0,
    genCalls := 0 }

/-- ShaderDoubleCache::Get (lines 263-291). On a shader_map miss the
generator runs; a "no shader needed" answer is recorded as a null pointer
and handle 0 is returned. Otherwise the generated source is emplaced in
shader_cache (compiling only when the source is new) and the key is pointed
at the (new or existing) stage. On a shader_map hit the cached pointer is
used directly: null yields handle 0, otherwise the pointee's handle; the
source dereferences the stored pointer, which the well-formedness invariant
keeps valid, so the impossible dangling case returns the null handle. -/
def ShaderDoubleCache.Get {K S : Type} [DecidableEq K]
    (gen : S → K → Option String) (c : ShaderDoubleCacheState K) (key : K)
    (setup : S) : (Nat × Option String) × ShaderDoubleCacheState K :=
  match assocFind key c.shader_map with
  | none =>
    let c1 := { c with genCalls := c.genCalls + 1 }
    match gen setup key with
    | none =>
      ((0, none), { c1 with shader_map := c1.shader_map ++ [(key, none)] })
    | some program =>
      match assocFind program c1.shader_cache with
      | some cached =>
        ((cached.handle, none),
         { c1 with shader_map := c1.shader_map ++ [(key, some program)] })
      | none =>
        let stage : OGLShaderStage := { handle := c1.nextHandle }
        ((stage.handle, some program),
         { shader_map := c1.shader_map ++ [(key, some program)],
           shader_cache := c1.shader_cache ++ [(program, stage)],
           nextHandle := c1.nextHandle + 1,
           compiles := c1.compiles + 1,
           genCalls := c1.genCalls })
  | some none => ((0, none), c)
  | some (some src) =>
    match assocFind src c.shader_cache with
    | some st => ((st.handle, none), c)
    | none => ((0, none), c)

/-- ShaderDoubleCache::Inject (lines 293-305): emplace the decompiled source
in shader_cache (keeping an existing stage if the source is already there)
and insert_or_assign the key to point at that entry. -/
def ShaderDoubleCache.Inject {K : Type} [DecidableEq K]
    (c : ShaderDoubleCacheState K) (key : K) (decomp : String)
    (stage : OGLShaderStage) : ShaderDoubleCacheState K :=
  let cache' :=
    match assocFind decomp c.shader_cache with
    | some _ => c.shader_cache
    | none => c.shader_cache ++ [(decomp, stage)]
  { c with shader_cache := cache',
           shader_map := insertOrAssign key (some decomp) c.shader_map }

/-- Well-formedness of the single-level cache: exactly one in-memory stage
per distinct config key, expressed as duplicate-freedom of the key list of
the shaders map. -/
def ShaderCacheState.WF {K : Type} (c : ShaderCacheState K) : Prop :=
  (c.shaders.map Prod.fst).Nodup

/-- Well-formedness of the double-level cache: the first-level key list and
the second-level source-text list are duplicate-free (exactly one stage per
distinct source text), and every non-null first-level stage pointer refers
to an existing second-level entry; several first-level keys may point at
the same second-level stage. -/
def ShaderDoubleCacheState.WF {K : Type} [DecidableEq K]
    (c : ShaderDoubleCacheState K) : Prop :=
  (c.shader_map.map Prod.fst).Nodup ∧
  (c.shader_cache.map Prod.fst).Nodup ∧
  ∀ k src, (k, some src) ∈ c.shader_map →
    ∃ st, assocFind src c.shader_cache = some st

/-- Outcome of binding one named uniform block to its fixed slot. -/
inductive BindOutcome where
  | skipped
  | fatalSizeMismatch
  | bound (slot : Nat)
deriving DecidableEq, Repr

/-- SetShaderUniformBlockBinding (lines 91-104): query the named uniform
block; GL_INVALID_INDEX (modelled as none) returns silently; a reported
GL_UNIFORM_BLOCK_DATA_SIZE differing from the expected byte size trips
ASSERT_MSG (a fatal assertion); otherwise the block is bound to the fixed
slot number. The two GL introspection calls are parameters. -/
def SetShaderUniformBlockBinding (getUniformBlockIndex : String → Option Nat)
    (getUniformBlockDataSize : Nat → Nat) (name : String) (binding : Nat)
    (expected_size : Nat) : BindOutcome :=
  match getUniformBlockIndex name with
  | none => BindOutcome.skipped
  | some ub_index =>
    if getUniformBlockDataSize ub_index = expected_size then
      BindOutcome.bound binding
    else
      BindOutcome.fatalSizeMismatch

/-- SetShaderSamplerBinding (lines 113-119): query the named sampler
uniform; location -1 (modelled as none) is silently skipped with no error,
otherwise the sampler is assigned its fixed texture unit (some unit). -/
def SetShaderSamplerBinding (getUniformLocation : String → Option Nat)
    (name : String) (binding : Nat) : Option Nat :=
  match getUniformLocation name with
  | none => none
  | some _ => some binding

/-- GetUniqueIdentifier (lines 23-34): fold the register hash into the zero
seed and, only when program code is present, fold in the code hash as well.
The 64-bit hash primitives (Common::ComputeHash64, Common::HashCombine)
live outside this translation unit and are taken as parameters. -/
def GetUniqueIdentifier (computeHash64 : List Nat → Nat)
    (hashCombine : Nat → Nat → Nat) (regs code : List Nat) : Nat :=
  let hash := hashCombine 0 (computeHash64 regs)
  if 0 < code.length then hashCombine hash (computeHash64 code) else hash

/-- Pica::Shader::ShaderSetup as far as the disk cache sees it: the
program-code words and swizzle-data words that get concatenated into the
Raw entry. -/
structure ShaderSetup where
  program_code : List Nat
  swizzle_data : List Nat
deriving DecidableEq, Repr

/-- ShaderProgramManager::Impl::ShaderTuple (lines 331-351). -/
structure ShaderTuple where
  vs_hash : Nat
  gs_hash : Nat
  fs_hash : Nat
  vs : Nat
  gs : Nat
  fs : Nat
deriving DecidableEq, Repr

/-- The disk-cache session saves UseProgrammableVertexShader can make:
SaveRaw appends the raw uid, SaveDecompiled appends (uid, sanitize flag). -/
structure DiskCacheSaves where
  savedRaws : List Nat
  savedDecompiled : List (Nat × Bool)
deriving DecidableEq, Repr

/-- The slice of ShaderProgramManager::Impl that
UseProgrammableVertexShader touches. -/
structure ManagerState (K : Type) where
  current : ShaderTuple
  programmable_vertex_shaders : ShaderDoubleCacheState K
  disk_cache : DiskCacheSaves

/-- External collaborators of UseProgrammableVertexShader: PicaVSConfig
construction from (regs, setup), the config hash, the vertex code
generator, the global hw-shader accurate-mul mode, and the hash
primitives. -/
structure VSEnv (K : Type) where
  mkConfig : List Nat → ShaderSetup → K
  configHash : K → Nat
  gen : ShaderSetup → K → Option String
  accurateMul : Bool
  computeHash64 : List Nat → Nat
  hashCombine : Nat → Nat → Nat

/-- ShaderProgramManager::UseProgrammableVertexShader (lines 380-402): ask
the double-level cache for the shader of the current config; a null handle
returns false, leaving the current tuple and the disk cache untouched
(though the cache itself has recorded the null miss); otherwise the current
vertex handle and vertex hash are set and, exactly when the Get produced a
newly generated shader, a Raw entry (keyed by the content hash over the
registers and the program-plus-swizzle code) and a Decompiled entry
(carrying the active accurate-mul flag) are saved to the disk cache. -/
def UseProgrammableVertexShader {K : Type} [DecidableEq K] (env : VSEnv K)
    (m : ManagerState K) (regs : List Nat) (setup : ShaderSetup) :
    Bool × ManagerState K :=
  let config := env.mkConfig regs setup
  let r := ShaderDoubleCache.Get env.gen m.programmable_vertex_shaders config setup
  let handle := r.1.1
  let result := r.1.2
  let m1 := { m with programmable_vertex_shaders := r.2 }
  if handle = 0 then (false, m1)
  else
    let m2 := { m1 with current :=
      { m1.current with vs := handle, vs_hash := env.configHash config } }
    match result with
    | some _ =>
      let program_code := setup.program_code ++ setup.swizzle_data
      let uid := GetUniqueIdentifier env.computeHash64 env.hashCombine regs
        program_code
      (true, { m2 with disk_cache :=
        { savedRaws := m2.disk_cache.savedRaws ++ [uid],
          savedDecompiled :=
            m2.disk_cache.savedDecompiled ++ [(uid, env.accurateMul)] } })
    | none => (true, m2)

/-- A vertex-shader environment whose generator reports "no shader
needed" for every config; used to exercise the null-handle path. -/
def vsEnvNone : VSEnv Nat :=
  { mkConfig := fun _ _ => 0, configHash := fun k => k,
    gen := fun _ _ => none, accurateMul := false,
    computeHash64 := fun l => l.length, hashCombine := fun a b => 2 * a + b }

/-- A vertex-shader environment whose generator always produces the source
"X"; used to exercise the new-shader path. -/
def vsEnvSome : VSEnv Nat :=
  { mkConfig := fun _ _ => 0, configHash := fun k => k,
    gen := fun _ _ => some "X", accurateMul := true,
    computeHash64 := fun l => l.length, hashCombine := fun a b => 2 * a + b }

/-- A freshly constructed manager state. -/
def managerFresh : ManagerState Nat :=
  { current := { vs_hash := 0, gs_hash := 0, fs_hash := 0, vs := 0, gs := 0,
                 fs := 0 },
    programmable_vertex_shaders := ShaderDoubleCacheState.fresh Nat,
    disk_cache := { savedRaws := [], savedDecompiled := [] } }

/-- A manager state whose double cache already holds the shader generated
for config 0 (the result of one prior Get); used to exercise the
cache-hit path. -/
def managerWarm : ManagerState Nat :=
  { managerFresh with programmable_vertex_shaders :=
      (ShaderDoubleCache.Get vsEnvSome.gen
        managerFresh.programmable_vertex_shaders
        (vsEnvSome.mkConfig [1] { program_code := [2], swizzle_data := [3] })
        { program_code := [2], swizzle_data := [3] }).2 }

/-- ProgramType of a raw disk-cache entry; the loader supports VS and FS,
and GS stands in for the stage kinds hitting the final "unsupported shader
type" branch. -/
inductive ProgramType where
  | VS
  | FS
  | GS
deriving DecidableEq, Repr

/-- ShaderDiskCacheRaw: stored unique identifier, program type, register
words and program-code words (program code followed by swizzle data). -/
structure RawEntry where
  uid : Nat
  ptype : ProgramType
  regs : List Nat
  code : List Nat
deriving DecidableEq, Repr

/-- ShaderDiskCacheDecompiled: the generated source and the sanitize_mul
flag it was generated under. -/
structure DecompEntry where
  result_code : String
  sanitize_mul : Bool
deriving DecidableEq, Repr

/-- ShaderDiskCacheDump: program-binary format tag and binary words. -/
structure DumpEntry where
  binary_format : Nat
  binary : List Nat
deriving DecidableEq, Repr

/-- External collaborators of LoadDiskCache: the hash primitives, the
platform binary loader (glCreateProgram, glProgramBinary and the
GL_LINK_STATUS query folded into one call returning the nonzero program
handle on success), the supported binary-format set, the separable
capability, the active accurate-mul mode, and the rebuild-phase code
generators and compiler. The source dereferences the rebuild-phase
generator results unconditionally, so they are taken total here. -/
structure LoadEnv where
  computeHash64 : List Nat → Nat
  hashCombine : Nat → Nat → Nat
  loadBinary : Nat → List Nat → Option Nat
  supported : List Nat
  separable : Bool
  accurateMul : Bool
  vsGen : RawEntry → String
  fsGen : RawEntry → String
  compile : String → Nat

/-- GeneratePrecompiledProgram (lines 36-61): a dump whose binary format is
not in the supported set is dropped before ever reaching glProgramBinary
(null handle, second component false = the binary was never passed to the
platform); otherwise the binary is handed to the loader (second component
true) and a link failure also yields the null handle. -/
def GeneratePrecompiledProgram (env : LoadEnv) (dump : DumpEntry) :
    Nat × Bool :=
  if dump.binary_format ∈ env.supported then
    match env.loadBinary dump.binary_format dump.binary with
    | some h => (h, true)
    | none => (0, true)
  else
    (0, false)

/-- State threaded through the LoadPrecompiledShader loop (lines 496-567):
the slow-path queue load_raws_index, the injections made into the two
in-memory caches, the uids whose dump bytes were handed to glProgramBinary,
the number of InvalidateAll calls, the compilation_failed flag, the
hash-mismatch abort, and how many entries the loop entered. -/
structure P4 where
  queued : List Nat
  injectedVS : List (Nat × String)
  injectedFS : List Nat
  binCalls : List Nat
  invalidateAll : Nat
  failed : Bool
  aborted : Bool
  processed : Nat
deriving DecidableEq, Repr

/-- The phase-4 loop state before the first iteration. -/
def P4.start : P4 :=
  { queued := [], injectedVS := [], injectedFS := [], binCalls := [],
    invalidateAll := 0, failed := false, aborted := false, processed := 0 }

/-- One iteration of the LoadPrecompiledShader lambda for the raw entry at
index i (lines 500-566): an already failed or aborted state absorbs (the
source returns out of the loop); a stored uid differing from the recomputed
content hash calls InvalidateAll and aborts; with both dump and decompiled
present, a vertex entry whose sanitize_mul differs from the active mode is
skipped, a dump the platform drops or rejects sets compilation_failed, an
accepted dump is injected into the cache of its stage kind, and an unknown
stage kind sets compilation_failed; with either map entry missing the index
is queued for the slow path. -/
def LoadPrecompiledShaderStep (env : LoadEnv)
    (decompiled : List (Nat × DecompEntry)) (dumps : List (Nat × DumpEntry))
    (s : P4) (entry : Nat × RawEntry) : P4 :=
  if s.failed ∨ s.aborted then s
  else
    let i := entry.1
    let raw := entry.2
    let s1 := { s with processed := s.processed + 1 }
    let calculated_hash :=
      GetUniqueIdentifier env.computeHash64 env.hashCombine raw.regs raw.code
    if raw.uid ≠ calculated_hash then
      { s1 with invalidateAll := s1.invalidateAll + 1, aborted := true }
    else
      match assocFind raw.uid dumps, assocFind raw.uid decompiled with
      | some dump, some decomp =>
        if raw.ptype = ProgramType.VS ∧
            decomp.sanitize_mul ≠ env.accurateMul then
          s1
        else
          let gp := GeneratePrecompiledProgram env dump
          let s2 :=
            if gp.2 then { s1 with binCalls := s1.binCalls ++ [raw.uid] }
            else s1
          if gp.1 = 0 then { s2 with failed := true }
          else
            match raw.ptype with
            | ProgramType.VS =>
              { s2 with injectedVS :=
                  s2.injectedVS ++ [(raw.uid, decomp.result_code)] }
            | ProgramType.FS =>
              { s2 with injectedFS := s2.injectedFS ++ [raw.uid] }
            | ProgramType.GS => { s2 with failed := true }
      | _, _ => { s1 with queued := s1.queued ++ [i] }

/-- The whole separable phase-4 scan over the enumerated raw list
(invoked as LoadPrecompiledShader(0, raws.size, ...) at line 603; the scan
itself is sequential, threads appear only in the rebuild phase). -/
def LoadPrecompiledShader (env : LoadEnv)
    (decompiled : List (Nat × DecompEntry)) (dumps : List (Nat × DumpEntry))
    (entries : List (Nat × RawEntry)) (s : P4) : P4 :=
  entries.foldl (LoadPrecompiledShaderStep env decompiled dumps) s

/-- State of the non-separable LoadPrecompiledProgram loop (lines
569-600): the uids loaded into the in-memory program cache, the uids whose
dump bytes reached glProgramBinary, and the compilation_failed flag. -/
structure PPhase where
  programCache : List Nat
  binCalls : List Nat
  failed : Bool
deriving DecidableEq, Repr

/-- The program-phase loop state before the first iteration. -/
def PPhase.start : PPhase :=
  { programCache := [], binCalls := [], failed := false }

/-- One iteration of LoadPrecompiledProgram for one dump-map entry: the
matching decompiled entry supplies the sanitize flag (the source
dereferences the find result unconditionally, so the missing-entry case a
well-formed store never produces is modelled as a skip); a sanitize
mismatch skips the dump; a dump the platform drops or rejects sets
compilation_failed and breaks the loop (absorbing state); an accepted dump
joins the program cache. -/
def LoadPrecompiledProgramStep (env : LoadEnv)
    (decompiled : List (Nat × DecompEntry)) (s : PPhase)
    (entry : Nat × DumpEntry) : PPhase :=
  if s.failed then s
  else
    match assocFind entry.1 decompiled with
    | none => s
    | some decomp =>
      if decomp.sanitize_mul ≠ env.accurateMul then s
      else
        let gp := GeneratePrecompiledProgram env entry.2
        let s1 :=
          if gp.2 then { s with binCalls := s.binCalls ++ [entry.1] } else s
        if gp.1 ≠ 0 then
          { s1 with programCache := s1.programCache ++ [entry.1] }
        else
          { s1 with failed := true }

/-- The whole non-separable phase-4 scan over the dump map. -/
def LoadPrecompiledProgram (env : LoadEnv)
    (decompiled : List (Nat × DecompEntry)) (dumps : List (Nat × DumpEntry))
    (s : PPhase) : PPhase :=
  dumps.foldl (LoadPrecompiledProgramStep env decompiled) s

/-- State of the LoadRawSepareble rebuild loop (lines 632-691, modelled
sequentially; the worker partition is a range split of the same list):
successfully rebuilt indices, the uids of the appended (Decompiled, Dump)
pairs, the precompiled_cache_altered contribution, and compilation_failed. -/
structure P6 where
  rebuilt : List Nat
  savedDecompiled : List Nat
  savedDumps : List Nat
  altered : Bool
  failed : Bool
deriving DecidableEq, Repr

/-- The rebuild loop state before the first iteration. -/
def P6.start : P6 :=
  { rebuilt := [], savedDecompiled := [], savedDumps := [], altered := false,
    failed := false }

/-- One iteration of the LoadRawSepareble lambda for the raw at the given
index: decompile and compile the stage from source; an unknown stage kind
or a null compiled handle sets compilation_failed; a success injects the
stage and appends a new (Decompiled, Dump) pair, altering the virtual
precompiled file. -/
def LoadRawSeparebleStep (env : LoadEnv) (raws : List RawEntry) (s : P6)
    (idx : Nat) : P6 :=
  if s.failed then s
  else
    match raws.get? idx with
    | none => s
    | some raw =>
      match raw.ptype with
      | ProgramType.GS => { s with failed := true }
      | ProgramType.VS =>
        let handle := env.compile (env.vsGen raw)
        if handle = 0 then { s with failed := true }
        else
          { s with rebuilt := s.rebuilt ++ [idx],
                   savedDecompiled := s.savedDecompiled ++ [raw.uid],
                   savedDumps := s.savedDumps ++ [raw.uid],
                   altered := true }
      | ProgramType.FS =>
        let handle := env.compile (env.fsGen raw)
        if handle = 0 then { s with failed := true }
        else
          { s with rebuilt := s.rebuilt ++ [idx],
                   savedDecompiled := s.savedDecompiled ++ [raw.uid],
                   savedDumps := s.savedDumps ++ [raw.uid],
                   altered := true }

/-- The whole rebuild phase over the scheduled index list. -/
def LoadRawSepareble (env : LoadEnv) (raws : List RawEntry)
    (indices : List Nat) (s : P6) : P6 :=
  indices.foldl (LoadRawSeparebleStep env raws) s

/-- Externally visible outcome of ShaderProgramManager::LoadDiskCache. -/
structure LoadOutcome where
  p4 : P4
  pp : PPhase
  invalidatePrecompiled : Nat
  programCacheCleared : Bool
  loadAllRaws : Bool
  slowPath : List Nat
  p6 : P6
  invalidateAllTotal : Nat
  altered : Bool
  savePrecompiledCount : Nat
deriving Repr

/-- ShaderProgramManager::LoadDiskCache (lines 466-727), with the loaded
stores and platform behaviour as inputs and stop_loading never set: phase 4
runs LoadPrecompiledShader on separable platforms and
LoadPrecompiledProgram otherwise; a compilation failure invalidates the
precompiled store, clears the in-memory program cache, marks the store
altered and schedules every raw for rebuild; non-separable platforms
return at that point, before the rebuild phase and before the final
serialization; separable platforms rebuild the scheduled (queued or all)
raws from source, a rebuild failure invalidates the whole store, and the
virtual precompiled file is serialized exactly when the altered flag is
set. -/
def LoadDiskCache (env : LoadEnv) (raws : List RawEntry)
    (decompiled : List (Nat × DecompEntry)) (dumps : List (Nat × DumpEntry)) :
    LoadOutcome :=
  if env.separable then
    let p4 := LoadPrecompiledShader env decompiled dumps raws.enum P4.start
    let slow := if p4.failed then List.range raws.length else p4.queued
    let p6 := LoadRawSepareble env raws slow P6.start
    let altered := p4.failed || p6.altered
    { p4 := p4, pp := PPhase.start,
      invalidatePrecompiled := if p4.failed then 1 else 0,
      programCacheCleared := p4.failed, loadAllRaws := p4.failed,
      slowPath := slow, p6 := p6,
      invalidateAllTotal := p4.invalidateAll + (if p6.failed then 1 else 0),
      altered := altered,
      savePrecompiledCount := if altered then 1 else 0 }
  else
    let pp := LoadPrecompiledProgram env decompiled dumps PPhase.start
    { p4 := P4.start, pp := pp,
      invalidatePrecompiled := if pp.failed then 1 else 0,
      programCacheCleared := pp.failed, loadAllRaws := pp.failed,
      slowPath := [], p6 := P6.start, invalidateAllTotal := 0,
      altered := pp.failed, savePrecompiledCount := 0 }

/-- Concrete warm-up environment: sum-based hash primitives, supported
binary format 5, separable platform, accepting loader. -/
def loadEnvSep : LoadEnv :=
  { computeHash64 := fun l => l.foldl (fun a x => a + x) 0,
    hashCombine := fun a b => 2 * a + b + 1,
    loadBinary := fun _ _ => some 7,
    supported := [5], separable := true, accurateMul := true,
    vsGen := fun _ => "V", fsGen := fun _ => "F",
    compile := fun _ => 3 }

/-- The same environment on a non-separable platform whose loader rejects
every binary. -/
def loadEnvNonSepReject : LoadEnv :=
  { loadEnvSep with separable := false, loadBinary := fun _ _ => none }

/-- A raw entry whose stored uid 0 differs from its recomputed content
hash (which is 2 under loadEnvSep). -/
def rawCorrupt : RawEntry :=
  { uid := 0, ptype := ProgramType.FS, regs := [1], code := [] }

/-- A raw entry with a matching content hash and no dump or decompiled
entry in the concrete stores, so it queues for the slow path. -/
def rawPlain : RawEntry :=
  { uid := 3, ptype := ProgramType.FS, regs := [2], code := [] }

/-- A raw entry with a matching content hash whose dump carries the
unsupported binary format 4. -/
def rawDumpBad : RawEntry :=
  { uid := 2, ptype := ProgramType.FS, regs := [1], code := [] }

/-- A vertex raw entry with a matching content hash whose decompiled entry
was generated under sanitize_mul false, differing from the active mode. -/
def rawVSMismatch : RawEntry :=
  { uid := 2, ptype := ProgramType.VS, regs := [1], code := [] }

/-- Decompiled store pairing rawDumpBad (uid 2) and rawPlain (uid 3), both
generated under the active sanitize mode. -/
def decompStoreC2 : List (Nat × DecompEntry) :=
  [(2, { result_code := "d2", sanitize_mul := true }),
   (3, { result_code := "d3", sanitize_mul := true })]

/-- Dump store giving uid 2 the unsupported format 4 and uid 3 the
supported format 5. -/
def dumpStoreC2 : List (Nat × DumpEntry) :=
  [(2, { binary_format := 4, binary := [9] }),
   (3, { binary_format := 5, binary := [8] })]

/-- Decompiled store for the sanitize-mismatch scenario: uid 2 was
generated under sanitize_mul false while the active mode is true. -/
def decompStoreC3 : List (Nat × DecompEntry) :=
  [(2, { result_code := "dv", sanitize_mul := false })]

/-- Dump store for the sanitize-mismatch scenario: uid 2 has a dump in the
supported format. -/
def dumpStoreC3 : List (Nat × DumpEntry) :=
  [(2, { binary_format := 5, binary := [9] })]

/-- Decompiled store for the non-separable serialization scenario. -/
def decompStoreC7 : List (Nat × DecompEntry) :=
  [(2, { result_code := "d", sanitize_mul := true })]

/-- Dump store for the non-separable serialization scenario: a supported
format whose binary the (rejecting) loader refuses to link. -/
def dumpStoreC7 : List (Nat × DumpEntry) :=
  [(2, { binary_format := 5, binary := [9] })]

theorem assocFind_nil {K V : Type} [DecidableEq K] (k : K) :
    assocFind (V := V) k [] = none := rfl

theorem assocFind_cons_self {K V : Type} [DecidableEq K] (k : K) (v : V)
    (l : List (K × V)) : assocFind k ((k, v) :: l) = some v := by
  simp [assocFind]

theorem assocFind_cons_ne {K V : Type} [DecidableEq K] {k k' : K} (v : V)
    (l : List (K × V)) (h : k ≠ k') :
    assocFind k ((k', v) :: l) = assocFind k l := by
  simp [assocFind, h]

theorem assocFind_append_of_isSome {K V : Type} [DecidableEq K] (k : K)
    {l1 : List (K × V)} (l2 : List (K × V)) {v : V}
    (h : assocFind k l1 = some v) : assocFind k (l1 ++ l2) = some v := by
  induction l1 with
  | nil => simp [assocFind] at h
  | cons p rest ih =>
    obtain ⟨k', v'⟩ := p
    by_cases hk : k = k'
    · subst hk
      simp [assocFind] at h ⊢
      exact h
    · simp [assocFind, hk] at h ⊢
      exact ih h

theorem assocFind_append_of_none {K V : Type} [DecidableEq K] (k : K)
    {l1 : List (K × V)} (l2 : List (K × V))
    (h : assocFind k l1 = none) : assocFind k (l1 ++ l2) = assocFind k l2 := by
  induction l1 with
  | nil => simp
  | cons p rest ih =>
    obtain ⟨k', v'⟩ := p
    by_cases hk : k = k'
    · subst hk; simp [assocFind] at h
    · simp [assocFind, hk] at h ⊢
      exact ih h

theorem assocFind_eq_none_iff {K V : Type} [DecidableEq K] (k : K)
    (l : List (K × V)) : assocFind k l = none ↔ k ∉ l.map Prod.fst := by
  induction l with
  | nil => simp [assocFind]
  | cons p rest ih =>
    obtain ⟨k', v'⟩ := p
    by_cases hk : k = k'
    · subst hk; simp [assocFind]
    · simp [assocFind, hk, ih]

theorem assocFind_mem {K V : Type} [DecidableEq K] {k : K} {v : V}
    {l : List (K × V)} (h : assocFind k l = some v) : (k, v) ∈ l := by
  induction l with
  | nil => simp [assocFind] at h
  | cons p rest ih =>
    obtain ⟨k', v'⟩ := p
    by_cases hk : k = k'
    · subst hk
      simp [assocFind] at h
      simp [h]
    · simp [assocFind, hk] at h
      exact List.mem_cons_of_mem _ (ih h)

theorem insertOrAssign_keys_subset {K V : Type} [DecidableEq K] (k : K)
    (v : V) (l : List (K × V)) :
    (insertOrAssign k v l).map Prod.fst ⊆ k :: l.map Prod.fst := by
  induction l with
  | nil => simp [insertOrAssign]
  | cons p rest ih =>
    obtain ⟨k', v'⟩ := p
    by_cases hk : k = k'
    · subst hk; simp [insertOrAssign]
    · simp only [insertOrAssign, if_neg hk, List.map_cons]
      intro x hx
      rcases List.mem_cons.mp hx with h1 | h1
      · simp [h1]
      · rcases List.mem_cons.mp (ih h1) with h2 | h2
        · simp [h2]
        · simp [h2]

theorem insertOrAssign_nodup {K V : Type} [DecidableEq K] (k : K) (v : V)
    {l : List (K × V)} (h : (l.map Prod.fst).Nodup) :
    ((insertOrAssign k v l).map Prod.fst).Nodup := by
  induction l with
  | nil => simp [insertOrAssign]
  | cons p rest ih =>
    obtain ⟨k', v'⟩ := p
    simp only [List.map_cons, List.nodup_cons] at h
    by_cases hk : k = k'
    · subst hk
      simpa [insertOrAssign] using h
    · simp only [insertOrAssign, if_neg hk, List.map_cons, List.nodup_cons]
      refine ⟨fun hmem => ?_, ih h.2⟩
      rcases List.mem_cons.mp (insertOrAssign_keys_subset k v rest hmem) with h1 | h1
      · exact hk h1.symm
      · exact h.1 h1

theorem mem_of_mem_insertOrAssign {K V : Type} [DecidableEq K] {k k0 : K}
    {v v0 : V} {l : List (K × V)} (h : (k0, v0) ∈ insertOrAssign k v l) :
    (k0, v0) = (k, v) ∨ (k0, v0) ∈ l := by
  induction l with
  | nil => simpa [insertOrAssign] using h
  | cons p rest ih =>
    obtain ⟨k', v'⟩ := p
    by_cases hk : k = k'
    · subst hk
      simp only [insertOrAssign, if_pos rfl] at h
      rcases List.mem_cons.mp h with h1 | h1
      · exact Or.inl h1
      · exact Or.inr (List.mem_cons_of_mem _ h1)
    · simp only [insertOrAssign, if_neg hk] at h
      rcases List.mem_cons.mp h with h1 | h1
      · exact Or.inr (by simp [h1])
      · rcases ih h1 with h2 | h2
        · exact Or.inl h2
        · exact Or.inr (List.mem_cons_of_mem _ h2)

/-- C4: on a fresh single-level ShaderCache, Get on value-equal configs c1
then c2 returns the same handle both times; the first call invokes the
source generator exactly once and returns the newly generated source, and
the second call returns no source (and leaves the cache unchanged). -/
theorem c4_single_cache_hit_after_miss (K : Type) [DecidableEq K]
    (gen : K → String) (c1 c2 : K) (heq : c1 = c2) :
    (ShaderCache.Get gen (ShaderCache.Get gen (ShaderCacheState.fresh K) c1).2 c2).1.1 =
      (ShaderCache.Get gen (ShaderCacheState.fresh K) c1).1.1 ∧
    (ShaderCache.Get gen (ShaderCacheState.fresh K) c1).1.2 = some (gen c1) ∧
    (ShaderCache.Get gen (ShaderCacheState.fresh K) c1).2.genCalls = 1 ∧
    (ShaderCache.Get gen (ShaderCache.Get gen (ShaderCacheState.fresh K) c1).2 c2).1.2 = none ∧
    (ShaderCache.Get gen (ShaderCache.Get gen (ShaderCacheState.fresh K) c1).2 c2).2 =
      (ShaderCache.Get gen (ShaderCacheState.fresh K) c1).2 := by
  subst heq
  simp [ShaderCache.Get, ShaderCacheState.fresh, assocFind]

/-- Witness for c4_single_cache_hit_after_miss at a concrete input. -/
theorem c4_single_cache_hit_after_miss_witness :
    (ShaderCache.Get (fun _ : Nat => "void main()")
        (ShaderCache.Get (fun _ : Nat => "void main()") (ShaderCacheState.fresh Nat) 7).2 7).1.1 =
      (ShaderCache.Get (fun _ : Nat => "void main()") (ShaderCacheState.fresh Nat) 7).1.1 ∧
    (ShaderCache.Get (fun _ : Nat => "void main()") (ShaderCacheState.fresh Nat) 7).1.2 =
      some ((fun _ : Nat => "void main()") 7) ∧
    (ShaderCache.Get (fun _ : Nat => "void main()") (ShaderCacheState.fresh Nat) 7).2.genCalls = 1 ∧
    (ShaderCache.Get (fun _ : Nat => "void main()")
        (ShaderCache.Get (fun _ : Nat => "void main()") (ShaderCacheState.fresh Nat) 7).2 7).1.2 = none ∧
    (ShaderCache.Get (fun _ : Nat => "void main()")
        (ShaderCache.Get (fun _ : Nat => "void main()") (ShaderCacheState.fresh Nat) 7).2 7).2 =
      (ShaderCache.Get (fun _ : Nat => "void main()") (ShaderCacheState.fresh Nat) 7).2 :=
  c4_single_cache_hit_after_miss Nat (fun _ => "void main()") 7 7 rfl

/-- C5: on a fresh double-level cache, for distinct configs A and B whose
generator runs both produce the same source X, Get A then Get B compile
exactly once; the first call reports the new source, the second reports
none, and both return the same handle. -/
theorem c5_double_cache_collapses_identical_source (K S : Type)
    [DecidableEq K] (gen : S → K → Option String) (A B : K) (sA sB : S)
    (X : String) (hne : B ≠ A) (hA : gen sA A = some X)
    (hB : gen sB B = some X) :
    (ShaderDoubleCache.Get gen (ShaderDoubleCacheState.fresh K) A sA).1.2 = some X ∧
    (ShaderDoubleCache.Get gen
        (ShaderDoubleCache.Get gen (ShaderDoubleCacheState.fresh K) A sA).2 B sB).1.2 = none ∧
    (ShaderDoubleCache.Get gen
        (ShaderDoubleCache.Get gen (ShaderDoubleCacheState.fresh K) A sA).2 B sB).1.1 =
      (ShaderDoubleCache.Get gen (ShaderDoubleCacheState.fresh K) A sA).1.1 ∧
    (ShaderDoubleCache.Get gen
        (ShaderDoubleCache.Get gen (ShaderDoubleCacheState.fresh K) A sA).2 B sB).2.compiles = 1 := by
  simp [ShaderDoubleCache.Get, ShaderDoubleCacheState.fresh, assocFind, hA, hB, hne]

/-- Witness for c5_double_cache_collapses_identical_source at a concrete
input: configs 1 and 2 both generate the source "X". -/
theorem c5_double_cache_collapses_identical_source_witness :
    (ShaderDoubleCache.Get (fun (_ : Unit) (_ : Nat) => some "X")
        (ShaderDoubleCacheState.fresh Nat) 1 ()).1.2 = some "X" ∧
    (ShaderDoubleCache.Get (fun (_ : Unit) (_ : Nat) => some "X")
        (ShaderDoubleCache.Get (fun (_ : Unit) (_ : Nat) => some "X")
          (ShaderDoubleCacheState.fresh Nat) 1 ()).2 2 ()).1.2 = none ∧
    (ShaderDoubleCache.Get (fun (_ : Unit) (_ : Nat) => some "X")
        (ShaderDoubleCache.Get (fun (_ : Unit) (_ : Nat) => some "X")
          (ShaderDoubleCacheState.fresh Nat) 1 ()).2 2 ()).1.1 =
      (ShaderDoubleCache.Get (fun (_ : Unit) (_ : Nat) => some "X")
        (ShaderDoubleCacheState.fresh Nat) 1 ()).1.1 ∧
    (ShaderDoubleCache.Get (fun (_ : Unit) (_ : Nat) => some "X")
        (ShaderDoubleCache.Get (fun (_ : Unit) (_ : Nat) => some "X")
          (ShaderDoubleCacheState.fresh Nat) 1 ()).2 2 ()).2.compiles = 1 :=
  c5_double_cache_collapses_identical_source Nat Unit
    (fun _ _ => some "X") 1 2 () () "X" (by decide) rfl rfl

/-- C6: when the generator reports "no shader needed" for an uncached key,
ShaderDoubleCache.Get returns handle 0 with no source and records a null
stage pointer for the key; any Get on a key whose recorded pointer is null
returns handle 0 with no source and leaves the whole state (in particular
the generator-invocation count) unchanged; and a Get on any other key
preserves the recorded null pointer, so the miss is cached permanently. -/
theorem c6_double_cache_permanent_null_miss (K S : Type) [DecidableEq K]
    (gen gen1 gen2 : S → K → Option String) (c d d2 : ShaderDoubleCacheState K)
    (key k2 : K) (setup setup1 setup2 : S)
    (habs : assocFind key c.shader_map = none)
    (hgen : gen setup key = none)
    (hnull1 : assocFind key d.shader_map = some none)
    (hk2 : k2 ≠ key)
    (hnull2 : assocFind key d2.shader_map = some none) :
    (ShaderDoubleCache.Get gen c key setup).1 = (0, none) ∧
    assocFind key (ShaderDoubleCache.Get gen c key setup).2.shader_map = some none ∧
    ShaderDoubleCache.Get gen1 d key setup1 = ((0, none), d) ∧
    assocFind key (ShaderDoubleCache.Get gen2 d2 k2 setup2).2.shader_map = some none := by
  refine ⟨?_, ?_, ?_, ?_⟩
  · simp [ShaderDoubleCache.Get, habs, hgen]
  · simp only [ShaderDoubleCache.Get, habs, hgen]
    rw [assocFind_append_of_none key _ habs]
    simp [assocFind]
  · simp [ShaderDoubleCache.Get, hnull1]
  · unfold ShaderDoubleCache.Get
    cases hfind : assocFind k2 d2.shader_map with
    | none =>
      cases hgen2 : gen2 setup2 k2 with
      | none =>
        simpa using assocFind_append_of_isSome key [(k2, none)] hnull2
      | some program =>
        cases hcache : assocFind program d2.shader_cache with
        | none =>
          simpa [hcache] using
            assocFind_append_of_isSome key [(k2, some program)] hnull2
        | some cached =>
          simpa [hcache] using
            assocFind_append_of_isSome key [(k2, some program)] hnull2
    | some ptr =>
      cases ptr with
      | none => simpa using hnull2
      | some src =>
        cases hcache : assocFind src d2.shader_cache <;>
          simpa [hcache] using hnull2

/-- Witness for c6_double_cache_permanent_null_miss at a concrete input:
the null miss is recorded by the first Get, repeated with the same key on
the resulting state, and preserved across a Get on another key. -/
theorem c6_double_cache_permanent_null_miss_witness :
    (ShaderDoubleCache.Get (fun (_ : Unit) (_ : Nat) => (none : Option String))
        (ShaderDoubleCacheState.fresh Nat) 3 ()).1 = (0, none) ∧
    assocFind 3 (ShaderDoubleCache.Get
        (fun (_ : Unit) (_ : Nat) => (none : Option String))
        (ShaderDoubleCacheState.fresh Nat) 3 ()).2.shader_map = some none ∧
    ShaderDoubleCache.Get (fun (_ : Unit) (_ : Nat) => (none : Option String))
        (ShaderDoubleCache.Get (fun (_ : Unit) (_ : Nat) => (none : Option String))
          (ShaderDoubleCacheState.fresh Nat) 3 ()).2 3 () =
      ((0, none),
        (ShaderDoubleCache.Get (fun (_ : Unit) (_ : Nat) => (none : Option String))
          (ShaderDoubleCacheState.fresh Nat) 3 ()).2) ∧
    assocFind 3 (ShaderDoubleCache.Get
        (fun (_ : Unit) (_ : Nat) => (none : Option String))
        (ShaderDoubleCache.Get (fun (_ : Unit) (_ : Nat) => (none : Option String))
          (ShaderDoubleCacheState.fresh Nat) 3 ()).2 4 ()).2.shader_map =
      some none :=
  c6_double_cache_permanent_null_miss Nat Unit
    (fun _ _ => none) (fun _ _ => none) (fun _ _ => none)
    (ShaderDoubleCacheState.fresh Nat)
    (ShaderDoubleCache.Get (fun (_ : Unit) (_ : Nat) => (none : Option String))
      (ShaderDoubleCacheState.fresh Nat) 3 ()).2
    (ShaderDoubleCache.Get (fun (_ : Unit) (_ : Nat) => (none : Option String))
      (ShaderDoubleCacheState.fresh Nat) 3 ()).2
    3 4 () () () rfl rfl rfl (by decide) rfl

/-- Appending a binding for a key that is absent keeps the key list
duplicate-free. -/
theorem wf_append_key {K V : Type} [DecidableEq K] {l : List (K × V)}
    {k : K} (v : V) (h : (l.map Prod.fst).Nodup)
    (habs : assocFind k l = none) :
    ((l ++ [(k, v)]).map Prod.fst).Nodup := by
  have hk : k ∉ l.map Prod.fst := (assocFind_eq_none_iff k l).mp habs
  simp [List.nodup_append, h, hk]

/-- C8: every cache operation (Get and Inject on both cache levels)
preserves the one-stage-per-key / one-stage-per-source invariant together
with the validity of the double-level first-level stage pointers. -/
theorem c8_cache_operations_preserve_invariant (K S : Type) [DecidableEq K]
    (gen : K → String) (gen2 : S → K → Option String)
    (c1 c2 : ShaderCacheState K) (c3 c4 : ShaderDoubleCacheState K)
    (config key key3 key4 : K) (setup : S) (stage stage4 : OGLShaderStage)
    (decomp : String)
    (hwf1 : c1.WF) (hwf2 : c2.WF) (hwf3 : c3.WF) (hwf4 : c4.WF) :
    ((ShaderCache.Get gen c1 config).2).WF ∧
    (ShaderCache.Inject c2 key stage).WF ∧
    ((ShaderDoubleCache.Get gen2 c3 key3 setup).2).WF ∧
    (ShaderDoubleCache.Inject c4 key4 decomp stage4).WF := by
  have part1 : ∀ (c : ShaderCacheState K) (cfg : K),
      c.WF → ((ShaderCache.Get gen c cfg).2).WF := by
    intro c config hwf
    unfold ShaderCache.Get
    cases hfind : assocFind config c.shaders with
    | some st => exact hwf
    | none => exact wf_append_key _ hwf hfind
  have part2 : ∀ (c : ShaderCacheState K) (k : K) (st : OGLShaderStage),
      c.WF → (ShaderCache.Inject c k st).WF := by
    intro c key stage hwf
    unfold ShaderCache.Inject
    cases hfind : assocFind key c.shaders with
    | some st => exact hwf
    | none => exact wf_append_key _ hwf hfind
  have part3 : ∀ (c : ShaderDoubleCacheState K) (k : K) (su : S),
      c.WF → ((ShaderDoubleCache.Get gen2 c k su).2).WF := by
    intro c key setup hwf
    obtain ⟨h1, h2, h3⟩ := hwf
    unfold ShaderDoubleCache.Get
    cases hfind : assocFind key c.shader_map with
    | none =>
      cases hg : gen2 setup key with
      | none =>
        dsimp only
        refine ⟨wf_append_key _ h1 hfind, h2, ?_⟩
        intro k src hmem
        rcases List.mem_append.mp hmem with hm | hm
        · exact h3 k src hm
        · simp at hm
      | some program =>
        cases hc : assocFind program c.shader_cache with
        | some cached =>
          simp only [hc]
          refine ⟨wf_append_key _ h1 hfind, h2, ?_⟩
          intro k src hmem
          rcases List.mem_append.mp hmem with hm | hm
          · exact h3 k src hm
          · simp at hm
            obtain ⟨hk2, hsrc⟩ := hm
            subst hsrc
            exact ⟨cached, hc⟩
        | none =>
          simp only [hc]
          refine ⟨wf_append_key _ h1 hfind, wf_append_key _ h2 hc, ?_⟩
          intro k src hmem
          rcases List.mem_append.mp hmem with hm | hm
          · obtain ⟨st, hst⟩ := h3 k src hm
            exact ⟨st, assocFind_append_of_isSome _ _ hst⟩
          · simp at hm
            obtain ⟨hk2, hsrc⟩ := hm
            subst hsrc
            refine ⟨{ handle := c.nextHandle }, ?_⟩
            rw [assocFind_append_of_none _ _ hc]
            simp [assocFind]
    | some ptr =>
      cases ptr with
      | none => exact ⟨h1, h2, h3⟩
      | some src =>
        cases hc : assocFind src c.shader_cache with
        | some st =>
          simp only [hc]
          exact ⟨h1, h2, h3⟩
        | none =>
          simp only [hc]
          exact ⟨h1, h2, h3⟩
  have part4 : ∀ (c : ShaderDoubleCacheState K) (k : K) (dc : String)
      (st : OGLShaderStage), c.WF → (ShaderDoubleCache.Inject c k dc st).WF := by
    intro c key decomp stage hwf
    obtain ⟨h1, h2, h3⟩ := hwf
    unfold ShaderDoubleCache.Inject
    cases hc : assocFind decomp c.shader_cache with
    | some st0 =>
      dsimp only
      refine ⟨insertOrAssign_nodup _ _ h1, h2, ?_⟩
      intro k src hmem
      rcases mem_of_mem_insertOrAssign hmem with hm | hm
      · simp at hm
        obtain ⟨hk2, hsrc⟩ := hm
        subst hsrc
        exact ⟨st0, hc⟩
      · exact h3 k src hm
    | none =>
      dsimp only
      refine ⟨insertOrAssign_nodup _ _ h1, wf_append_key _ h2 hc, ?_⟩
      intro k src hmem
      rcases mem_of_mem_insertOrAssign hmem with hm | hm
      · simp at hm
        obtain ⟨hk2, hsrc⟩ := hm
        subst hsrc
        refine ⟨stage, ?_⟩
        rw [assocFind_append_of_none _ _ hc]
        simp [assocFind]
      · obtain ⟨st, hst⟩ := h3 k src hm
        exact ⟨st, assocFind_append_of_isSome _ _ hst⟩
  exact ⟨part1 c1 config hwf1, part2 c2 key stage hwf2,
         part3 c3 key3 setup hwf3, part4 c4 key4 decomp stage4 hwf4⟩

/-- Witness for c8_cache_operations_preserve_invariant: all four operations
applied at concrete inputs starting from fresh (trivially well-formed)
caches. -/
theorem c8_cache_operations_preserve_invariant_witness :
    ((ShaderCache.Get (fun _ : Nat => "s") (ShaderCacheState.fresh Nat) 0).2).WF ∧
    (ShaderCache.Inject (ShaderCacheState.fresh Nat) 1 { handle := 9 }).WF ∧
    ((ShaderDoubleCache.Get (fun (_ : Unit) (_ : Nat) => some "x")
        (ShaderDoubleCacheState.fresh Nat) 2 ()).2).WF ∧
    (ShaderDoubleCache.Inject (ShaderDoubleCacheState.fresh Nat) 3 "y"
        { handle := 4 }).WF := by
  have hfresh1 : (ShaderCacheState.fresh Nat).WF := by
    simp [ShaderCacheState.fresh, ShaderCacheState.WF]
  have hfresh2 : (ShaderDoubleCacheState.fresh Nat).WF := by
    simp [ShaderDoubleCacheState.fresh, ShaderDoubleCacheState.WF]
  exact c8_cache_operations_preserve_invariant Nat Unit
    (fun _ => "s") (fun _ _ => some "x")
    (ShaderCacheState.fresh Nat) (ShaderCacheState.fresh Nat)
    (ShaderDoubleCacheState.fresh Nat) (ShaderDoubleCacheState.fresh Nat)
    0 1 2 3 () { handle := 9 } { handle := 4 } "y"
    hfresh1 hfresh1 hfresh2 hfresh2

/-- C9: binding a named uniform block is silently skipped exactly when the
block is absent (optimized out); it trips the fatal size assertion exactly
when the block is present with a reported size differing from the expected
byte size; and binding a named sampler uniform is silently skipped exactly
when the uniform is absent. -/
theorem c9_uniform_binding_outcomes
    (getUniformBlockIndex : String → Option Nat)
    (getUniformBlockDataSize : Nat → Nat)
    (getUniformLocation : String → Option Nat)
    (name sname : String) (binding sbinding : Nat) (expected_size : Nat) :
    (SetShaderUniformBlockBinding getUniformBlockIndex
        getUniformBlockDataSize name binding expected_size =
        BindOutcome.skipped ↔ getUniformBlockIndex name = none) ∧
    (SetShaderUniformBlockBinding getUniformBlockIndex
        getUniformBlockDataSize name binding expected_size =
        BindOutcome.fatalSizeMismatch ↔
      ∃ idx, getUniformBlockIndex name = some idx ∧
        getUniformBlockDataSize idx ≠ expected_size) ∧
    (SetShaderSamplerBinding getUniformLocation sname sbinding = none ↔
      getUniformLocation sname = none) := by
  refine ⟨?_, ?_, ?_⟩
  · cases h : getUniformBlockIndex name with
    | none => simp [SetShaderUniformBlockBinding, h]
    | some idx =>
      by_cases hs : getUniformBlockDataSize idx = expected_size <;>
        simp [SetShaderUniformBlockBinding, h, hs]
  · cases h : getUniformBlockIndex name with
    | none => simp [SetShaderUniformBlockBinding, h]
    | some idx =>
      by_cases hs : getUniformBlockDataSize idx = expected_size <;>
        simp [SetShaderUniformBlockBinding, h, hs]
  · cases h : getUniformLocation sname with
    | none => simp [SetShaderSamplerBinding, h]
    | some loc => simp [SetShaderSamplerBinding, h]

/-- C10: when the double-level cache reports "no shader needed" (null
handle), UseProgrammableVertexShader returns false and leaves the current
shader tuple (in particular its vertex handle and vertex hash) and the
disk cache untouched; when the call produced a newly generated shader
(nonzero handle with a new source) it returns true, appends exactly one
Raw uid (the content hash over registers and program-plus-swizzle code)
and one Decompiled entry, and sets the current vertex handle and hash; and
when the cache hit an existing shader (nonzero handle, no source) it
returns true and saves nothing. -/
theorem c10_use_programmable_vertex_shader (K : Type) [DecidableEq K]
    (envA envB envC : VSEnv K) (mA mB mC : ManagerState K)
    (regsA regsB regsC : List Nat) (setupA setupB setupC : ShaderSetup)
    (h0 : (ShaderDoubleCache.Get envA.gen mA.programmable_vertex_shaders
        (envA.mkConfig regsA setupA) setupA).1.1 = 0)
    (hBnz : (ShaderDoubleCache.Get envB.gen mB.programmable_vertex_shaders
        (envB.mkConfig regsB setupB) setupB).1.1 ≠ 0)
    (hBsome : (ShaderDoubleCache.Get envB.gen mB.programmable_vertex_shaders
        (envB.mkConfig regsB setupB) setupB).1.2.isSome = true)
    (hCnz : (ShaderDoubleCache.Get envC.gen mC.programmable_vertex_shaders
        (envC.mkConfig regsC setupC) setupC).1.1 ≠ 0)
    (hCnone : (ShaderDoubleCache.Get envC.gen mC.programmable_vertex_shaders
        (envC.mkConfig regsC setupC) setupC).1.2 = none) :
    ((UseProgrammableVertexShader envA mA regsA setupA).1 = false ∧
     (UseProgrammableVertexShader envA mA regsA setupA).2.current = mA.current ∧
     (UseProgrammableVertexShader envA mA regsA setupA).2.disk_cache =
       mA.disk_cache) ∧
    ((UseProgrammableVertexShader envB mB regsB setupB).1 = true ∧
     (UseProgrammableVertexShader envB mB regsB setupB).2.disk_cache.savedRaws =
       mB.disk_cache.savedRaws ++
         [GetUniqueIdentifier envB.computeHash64 envB.hashCombine regsB
           (setupB.program_code ++ setupB.swizzle_data)] ∧
     (UseProgrammableVertexShader envB mB regsB setupB).2.disk_cache.savedDecompiled =
       mB.disk_cache.savedDecompiled ++
         [(GetUniqueIdentifier envB.computeHash64 envB.hashCombine regsB
             (setupB.program_code ++ setupB.swizzle_data), envB.accurateMul)] ∧
     (UseProgrammableVertexShader envB mB regsB setupB).2.current.vs =
       (ShaderDoubleCache.Get envB.gen mB.programmable_vertex_shaders
         (envB.mkConfig regsB setupB) setupB).1.1 ∧
     (UseProgrammableVertexShader envB mB regsB setupB).2.current.vs_hash =
       envB.configHash (envB.mkConfig regsB setupB)) ∧
    ((UseProgrammableVertexShader envC mC regsC setupC).1 = true ∧
     (UseProgrammableVertexShader envC mC regsC setupC).2.disk_cache =
       mC.disk_cache) := by
  refine ⟨?_, ?_, ?_⟩
  · simp only [UseProgrammableVertexShader]
    rcases hr : ShaderDoubleCache.Get envA.gen mA.programmable_vertex_shaders
        (envA.mkConfig regsA setupA) setupA with ⟨⟨handle, result⟩, st⟩
    rw [hr] at h0
    simp only at h0
    subst h0
    simp
  · simp only [UseProgrammableVertexShader]
    rcases hr : ShaderDoubleCache.Get envB.gen mB.programmable_vertex_shaders
        (envB.mkConfig regsB setupB) setupB with ⟨⟨handle, result⟩, st⟩
    rw [hr] at hBnz hBsome
    simp only at hBnz hBsome
    cases result with
    | none => simp at hBsome
    | some code => simp [hBnz]
  · simp only [UseProgrammableVertexShader]
    rcases hr : ShaderDoubleCache.Get envC.gen mC.programmable_vertex_shaders
        (envC.mkConfig regsC setupC) setupC with ⟨⟨handle, result⟩, st⟩
    rw [hr] at hCnz hCnone
    simp only at hCnz hCnone
    subst hCnone
    simp [hCnz]

/-- Witness for c10_use_programmable_vertex_shader: the null-handle path on
a generator reporting "no shader needed", the new-shader path on a
generator producing the source "X", and the cache-hit path on a state
already holding that shader. -/
theorem c10_use_programmable_vertex_shader_witness :
    ((UseProgrammableVertexShader vsEnvNone managerFresh []
        { program_code := [], swizzle_data := [] }).1 = false ∧
     (UseProgrammableVertexShader vsEnvNone managerFresh []
        { program_code := [], swizzle_data := [] }).2.current =
       managerFresh.current ∧
     (UseProgrammableVertexShader vsEnvNone managerFresh []
        { program_code := [], swizzle_data := [] }).2.disk_cache =
       managerFresh.disk_cache) ∧
    ((UseProgrammableVertexShader vsEnvSome managerFresh [1]
        { program_code := [2], swizzle_data := [3] }).1 = true ∧
     (UseProgrammableVertexShader vsEnvSome managerFresh [1]
        { program_code := [2], swizzle_data := [3] }).2.disk_cache.savedRaws =
       managerFresh.disk_cache.savedRaws ++
         [GetUniqueIdentifier vsEnvSome.computeHash64 vsEnvSome.hashCombine [1]
           (ShaderSetup.program_code { program_code := [2], swizzle_data := [3] } ++
            ShaderSetup.swizzle_data { program_code := [2], swizzle_data := [3] })] ∧
     (UseProgrammableVertexShader vsEnvSome managerFresh [1]
        { program_code := [2], swizzle_data := [3] }).2.disk_cache.savedDecompiled =
       managerFresh.disk_cache.savedDecompiled ++
         [(GetUniqueIdentifier vsEnvSome.computeHash64 vsEnvSome.hashCombine [1]
             (ShaderSetup.program_code { program_code := [2], swizzle_data := [3] } ++
              ShaderSetup.swizzle_data { program_code := [2], swizzle_data := [3] }),
           vsEnvSome.accurateMul)] ∧
     (UseProgrammableVertexShader vsEnvSome managerFresh [1]
        { program_code := [2], swizzle_data := [3] }).2.current.vs =
       (ShaderDoubleCache.Get vsEnvSome.gen
          managerFresh.programmable_vertex_shaders
          (vsEnvSome.mkConfig [1] { program_code := [2], swizzle_data := [3] })
          { program_code := [2], swizzle_data := [3] }).1.1 ∧
     (UseProgrammableVertexShader vsEnvSome managerFresh [1]
        { program_code := [2], swizzle_data := [3] }).2.current.vs_hash =
       vsEnvSome.configHash
         (vsEnvSome.mkConfig [1] { program_code := [2], swizzle_data := [3] })) ∧
    ((UseProgrammableVertexShader vsEnvSome managerWarm [1]
        { program_code := [2], swizzle_data := [3] }).1 = true ∧
     (UseProgrammableVertexShader vsEnvSome managerWarm [1]
        { program_code := [2], swizzle_data := [3] }).2.disk_cache =
       managerWarm.disk_cache) :=
  c10_use_programmable_vertex_shader Nat vsEnvNone vsEnvSome vsEnvSome
    managerFresh managerFresh managerWarm [] [1] [1]
    { program_code := [], swizzle_data := [] }
    { program_code := [2], swizzle_data := [3] }
    { program_code := [2], swizzle_data := [3] }
    rfl (by decide) rfl (by decide) rfl

theorem LoadPrecompiledShaderStep_absorb (env : LoadEnv)
    (dec : List (Nat × DecompEntry)) (dumps : List (Nat × DumpEntry))
    (s : P4) (e : Nat × RawEntry)
    (h : s.failed = true ∨ s.aborted = true) :
    LoadPrecompiledShaderStep env dec dumps s e = s := by
  unfold LoadPrecompiledShaderStep
  rw [if_pos h]

theorem LoadPrecompiledShader_absorb (env : LoadEnv)
    (dec : List (Nat × DecompEntry)) (dumps : List (Nat × DumpEntry))
    (entries : List (Nat × RawEntry)) (s : P4)
    (h : s.failed = true ∨ s.aborted = true) :
    LoadPrecompiledShader env dec dumps entries s = s := by
  induction entries with
  | nil => rfl
  | cons e rest ih =>
    unfold LoadPrecompiledShader at ih ⊢
    rw [List.foldl_cons, LoadPrecompiledShaderStep_absorb env dec dumps s e h]
    exact ih

theorem LoadPrecompiledShaderStep_mismatch (env : LoadEnv)
    (dec : List (Nat × DecompEntry)) (dumps : List (Nat × DumpEntry))
    (s : P4) (i : Nat) (raw : RawEntry)
    (hf : s.failed = false) (ha : s.aborted = false)
    (hm : raw.uid ≠ GetUniqueIdentifier env.computeHash64 env.hashCombine
      raw.regs raw.code) :
    LoadPrecompiledShaderStep env dec dumps s (i, raw) =
      { s with processed := s.processed + 1,
               invalidateAll := s.invalidateAll + 1, aborted := true } := by
  unfold LoadPrecompiledShaderStep
  rw [if_neg (by simp [hf, ha])]
  dsimp only
  rw [if_pos hm]

theorem LoadPrecompiledShaderStep_unsupported (env : LoadEnv)
    (dec : List (Nat × DecompEntry)) (dumps : List (Nat × DumpEntry))
    (s : P4) (i : Nat) (raw : RawEntry) (dump : DumpEntry)
    (decomp : DecompEntry)
    (hf : s.failed = false) (ha : s.aborted = false)
    (hh : raw.uid = GetUniqueIdentifier env.computeHash64 env.hashCombine
      raw.regs raw.code)
    (hd : assocFind raw.uid dumps = some dump)
    (hdec : assocFind raw.uid dec = some decomp)
    (hsan : ¬(raw.ptype = ProgramType.VS ∧
      decomp.sanitize_mul ≠ env.accurateMul))
    (hfmt : dump.binary_format ∉ env.supported) :
    LoadPrecompiledShaderStep env dec dumps s (i, raw) =
      { s with processed := s.processed + 1, failed := true } := by
  unfold LoadPrecompiledShaderStep
  rw [if_neg (by simp [hf, ha])]
  dsimp only
  rw [if_neg (by simp [hh]), hd, hdec]
  dsimp only
  rw [if_neg hsan]
  have hgp : GeneratePrecompiledProgram env dump = (0, false) := by
    unfold GeneratePrecompiledProgram
    rw [if_neg hfmt]
  rw [hgp]
  simp

theorem LoadPrecompiledShaderStep_sanitize_skip (env : LoadEnv)
    (dec : List (Nat × DecompEntry)) (dumps : List (Nat × DumpEntry))
    (s : P4) (i : Nat) (raw : RawEntry) (dump : DumpEntry)
    (decomp : DecompEntry)
    (hf : s.failed = false) (ha : s.aborted = false)
    (hh : raw.uid = GetUniqueIdentifier env.computeHash64 env.hashCombine
      raw.regs raw.code)
    (hd : assocFind raw.uid dumps = some dump)
    (hdec : assocFind raw.uid dec = some decomp)
    (htype : raw.ptype = ProgramType.VS)
    (hsan : decomp.sanitize_mul ≠ env.accurateMul) :
    LoadPrecompiledShaderStep env dec dumps s (i, raw) =
      { s with processed := s.processed + 1 } := by
  unfold LoadPrecompiledShaderStep
  rw [if_neg (by simp [hf, ha])]
  dsimp only
  rw [if_neg (by simp [hh]), hd, hdec]
  dsimp only
  rw [if_pos ⟨htype, hsan⟩]

theorem LoadPrecompiledShaderStep_queue (env : LoadEnv)
    (dec : List (Nat × DecompEntry)) (dumps : List (Nat × DumpEntry))
    (s : P4) (i : Nat) (raw : RawEntry)
    (hf : s.failed = false) (ha : s.aborted = false)
    (hh : raw.uid = GetUniqueIdentifier env.computeHash64 env.hashCombine
      raw.regs raw.code)
    (hmiss : assocFind raw.uid dumps = none ∨
      assocFind raw.uid dec = none) :
    LoadPrecompiledShaderStep env dec dumps s (i, raw) =
      { s with processed := s.processed + 1,
               queued := s.queued ++ [i] } := by
  unfold LoadPrecompiledShaderStep
  rw [if_neg (by simp [hf, ha])]
  dsimp only
  rw [if_neg (by simp [hh])]
  rcases hmiss with h | h
  · rw [h]
  · cases h2 : assocFind raw.uid dumps with
    | none => rfl
    | some dump => rw [h]

/-- C1 (amended): during warm-up, when the separable phase-4 scan reaches a
Raw entry whose stored ContentIdentifier differs from the hash recomputed
over its register and program-code bytes, LoadDiskCache invalidates the
entire persisted store exactly once and stops the precompiled-load scan at
that entry (the abort changes nothing else: no queueing, no injection, no
failure flag); the slow path then rebuilds only the entries queued before
the corrupt one — Raw entries are not all marked for rebuild. -/
theorem c1_hash_mismatch_invalidates_and_stops (env : LoadEnv)
    (dec : List (Nat × DecompEntry)) (dumps : List (Nat × DumpEntry))
    (pre : List RawEntry) (raw : RawEntry) (rest : List RawEntry)
    (hsep : env.separable = true)
    (hf : (LoadPrecompiledShader env dec dumps pre.enum P4.start).failed =
      false)
    (ha : (LoadPrecompiledShader env dec dumps pre.enum P4.start).aborted =
      false)
    (hm : raw.uid ≠ GetUniqueIdentifier env.computeHash64 env.hashCombine
      raw.regs raw.code) :
    (LoadDiskCache env (pre ++ raw :: rest) dec dumps).p4 =
      { LoadPrecompiledShader env dec dumps pre.enum P4.start with
        processed :=
          (LoadPrecompiledShader env dec dumps pre.enum P4.start).processed + 1,
        invalidateAll :=
          (LoadPrecompiledShader env dec dumps pre.enum P4.start).invalidateAll + 1,
        aborted := true } ∧
    (LoadDiskCache env (pre ++ raw :: rest) dec dumps).loadAllRaws = false ∧
    (LoadDiskCache env (pre ++ raw :: rest) dec dumps).slowPath =
      (LoadPrecompiledShader env dec dumps pre.enum P4.start).queued := by
  have hp4 : LoadPrecompiledShader env dec dumps
      (pre ++ raw :: rest).enum P4.start =
      { LoadPrecompiledShader env dec dumps pre.enum P4.start with
        processed :=
          (LoadPrecompiledShader env dec dumps pre.enum P4.start).processed + 1,
        invalidateAll :=
          (LoadPrecompiledShader env dec dumps pre.enum P4.start).invalidateAll + 1,
        aborted := true } := by
    rw [List.enum_append]
    unfold LoadPrecompiledShader at hf ha ⊢
    rw [List.foldl_append, List.enumFrom_cons, List.foldl_cons]
    rw [LoadPrecompiledShaderStep_mismatch env dec dumps _ pre.length raw hf
      ha hm]
    exact LoadPrecompiledShader_absorb env dec dumps _ _ (Or.inr rfl)
  unfold LoadDiskCache
  rw [if_pos hsep]
  dsimp only
  rw [hp4]
  simp [hf]

/-- Witness for c1_hash_mismatch_invalidates_and_stops at the concrete
corrupt-first store. -/
theorem c1_hash_mismatch_invalidates_and_stops_witness :
    (LoadDiskCache loadEnvSep ([] ++ rawCorrupt :: [rawPlain]) [] []).p4 =
      { LoadPrecompiledShader loadEnvSep [] []
          (List.enum ([] : List RawEntry)) P4.start with
        processed :=
          (LoadPrecompiledShader loadEnvSep [] []
            (List.enum ([] : List RawEntry)) P4.start).processed + 1,
        invalidateAll :=
          (LoadPrecompiledShader loadEnvSep [] []
            (List.enum ([] : List RawEntry)) P4.start).invalidateAll + 1,
        aborted := true } ∧
    (LoadDiskCache loadEnvSep ([] ++ rawCorrupt :: [rawPlain]) [] []).loadAllRaws =
      false ∧
    (LoadDiskCache loadEnvSep ([] ++ rawCorrupt :: [rawPlain]) [] []).slowPath =
      (LoadPrecompiledShader loadEnvSep [] []
        (List.enum ([] : List RawEntry)) P4.start).queued :=
  c1_hash_mismatch_invalidates_and_stops loadEnvSep [] [] [] rawCorrupt
    [rawPlain] rfl rfl rfl (by decide)

/-- Counterexample to C1 as stated: with the corrupt entry first and a
healthy entry after it, the store is invalidated once and the scan aborts,
but no entry at all is queued or rebuilt — so it is false that every Raw
entry is marked for rebuild from source. -/
theorem c1_counterexample :
    (LoadDiskCache loadEnvSep [rawCorrupt, rawPlain] [] []).p4.invalidateAll = 1 ∧
    (LoadDiskCache loadEnvSep [rawCorrupt, rawPlain] [] []).p4.processed = 1 ∧
    (LoadDiskCache loadEnvSep [rawCorrupt, rawPlain] [] []).loadAllRaws = false ∧
    (LoadDiskCache loadEnvSep [rawCorrupt, rawPlain] [] []).slowPath = [] ∧
    (LoadDiskCache loadEnvSep [rawCorrupt, rawPlain] [] []).p6.rebuilt = [] := by
  decide

/-- C2 (amended): a Dump whose binary-format tag is absent from the
platform's supported set is never passed to the platform's load-binary
call (GeneratePrecompiledProgram returns the null handle without invoking
it, and the step leaves the loadBinary call list unchanged), but the
failure is systemic rather than local: the scan stops with
compilation_failed set, the entire precompiled store is invalidated, the
in-memory program cache is cleared, and every raw entry — not only the one
with the unsupported dump — is scheduled for source rebuild. -/
theorem c2_unsupported_format_never_loaded_but_systemic (env : LoadEnv)
    (dec : List (Nat × DecompEntry)) (dumps : List (Nat × DumpEntry))
    (pre : List RawEntry) (raw : RawEntry) (rest : List RawEntry)
    (dump : DumpEntry) (decomp : DecompEntry)
    (hsep : env.separable = true)
    (hf : (LoadPrecompiledShader env dec dumps pre.enum P4.start).failed =
      false)
    (ha : (LoadPrecompiledShader env dec dumps pre.enum P4.start).aborted =
      false)
    (hh : raw.uid = GetUniqueIdentifier env.computeHash64 env.hashCombine
      raw.regs raw.code)
    (hd : assocFind raw.uid dumps = some dump)
    (hdec : assocFind raw.uid dec = some decomp)
    (hsan : ¬(raw.ptype = ProgramType.VS ∧
      decomp.sanitize_mul ≠ env.accurateMul))
    (hfmt : dump.binary_format ∉ env.supported) :
    GeneratePrecompiledProgram env dump = (0, false) ∧
    (LoadDiskCache env (pre ++ raw :: rest) dec dumps).p4 =
      { LoadPrecompiledShader env dec dumps pre.enum P4.start with
        processed :=
          (LoadPrecompiledShader env dec dumps pre.enum P4.start).processed + 1,
        failed := true } ∧
    (LoadDiskCache env (pre ++ raw :: rest) dec dumps).invalidatePrecompiled = 1 ∧
    (LoadDiskCache env (pre ++ raw :: rest) dec dumps).programCacheCleared = true ∧
    (LoadDiskCache env (pre ++ raw :: rest) dec dumps).loadAllRaws = true ∧
    (LoadDiskCache env (pre ++ raw :: rest) dec dumps).slowPath =
      List.range (pre ++ raw :: rest).length := by
  have hgp : GeneratePrecompiledProgram env dump = (0, false) := by
    unfold GeneratePrecompiledProgram
    rw [if_neg hfmt]
  have hp4 : LoadPrecompiledShader env dec dumps
      (pre ++ raw :: rest).enum P4.start =
      { LoadPrecompiledShader env dec dumps pre.enum P4.start with
        processed :=
          (LoadPrecompiledShader env dec dumps pre.enum P4.start).processed + 1,
        failed := true } := by
    rw [List.enum_append]
    unfold LoadPrecompiledShader at hf ha ⊢
    rw [List.foldl_append, List.enumFrom_cons, List.foldl_cons]
    rw [LoadPrecompiledShaderStep_unsupported env dec dumps _ pre.length raw
      dump decomp hf ha hh hd hdec hsan hfmt]
    exact LoadPrecompiledShader_absorb env dec dumps _ _ (Or.inl rfl)
  refine ⟨hgp, ?_⟩
  unfold LoadDiskCache
  rw [if_pos hsep]
  dsimp only
  rw [hp4]
  simp

/-- Witness for c2_unsupported_format_never_loaded_but_systemic at the
concrete store whose first entry carries the format-4 dump while only
format 5 is supported. -/
theorem c2_unsupported_format_never_loaded_but_systemic_witness :
    GeneratePrecompiledProgram loadEnvSep
      { binary_format := 4, binary := [9] } = (0, false) ∧
    (LoadDiskCache loadEnvSep ([] ++ rawDumpBad :: [rawPlain]) decompStoreC2
        dumpStoreC2).p4 =
      { LoadPrecompiledShader loadEnvSep decompStoreC2 dumpStoreC2
          (List.enum ([] : List RawEntry)) P4.start with
        processed :=
          (LoadPrecompiledShader loadEnvSep decompStoreC2 dumpStoreC2
            (List.enum ([] : List RawEntry)) P4.start).processed + 1,
        failed := true } ∧
    (LoadDiskCache loadEnvSep ([] ++ rawDumpBad :: [rawPlain]) decompStoreC2
        dumpStoreC2).invalidatePrecompiled = 1 ∧
    (LoadDiskCache loadEnvSep ([] ++ rawDumpBad :: [rawPlain]) decompStoreC2
        dumpStoreC2).programCacheCleared = true ∧
    (LoadDiskCache loadEnvSep ([] ++ rawDumpBad :: [rawPlain]) decompStoreC2
        dumpStoreC2).loadAllRaws = true ∧
    (LoadDiskCache loadEnvSep ([] ++ rawDumpBad :: [rawPlain]) decompStoreC2
        dumpStoreC2).slowPath =
      List.range ([] ++ rawDumpBad :: [rawPlain]).length :=
  c2_unsupported_format_never_loaded_but_systemic loadEnvSep decompStoreC2
    dumpStoreC2 [] rawDumpBad [rawPlain]
    { binary_format := 4, binary := [9] }
    { result_code := "d2", sanitize_mul := true }
    rfl rfl rfl (by decide) (by decide) (by decide) (by decide) (by decide)

/-- Counterexample to C2 as stated: the unsupported-format dump of the
first entry is indeed never passed to the platform loader, but the whole
precompiled store is invalidated and both entries — not only the one with
the bad dump — fall back to source compilation. -/
theorem c2_counterexample :
    (LoadDiskCache loadEnvSep [rawDumpBad, rawPlain] decompStoreC2
        dumpStoreC2).p4.binCalls = [] ∧
    (LoadDiskCache loadEnvSep [rawDumpBad, rawPlain] decompStoreC2
        dumpStoreC2).invalidatePrecompiled = 1 ∧
    (LoadDiskCache loadEnvSep [rawDumpBad, rawPlain] decompStoreC2
        dumpStoreC2).loadAllRaws = true ∧
    (LoadDiskCache loadEnvSep [rawDumpBad, rawPlain] decompStoreC2
        dumpStoreC2).slowPath = [0, 1] ∧
    (LoadDiskCache loadEnvSep [rawDumpBad, rawPlain] decompStoreC2
        dumpStoreC2).p6.rebuilt = [0, 1] := by
  decide

/-- C3 (amended): a vertex-stage entry with both dump and decompiled
present whose sanitize flag differs from the active mode is skipped
without invalidating the store — but the skipped index is NOT queued for
the slow-path rebuild: the scan state is unchanged except for moving past
the entry; the slow-path queue receives exactly the entries whose dump or
decompiled entry is missing (after a passing hash check). -/
theorem c3_sanitize_mismatch_skips_without_queueing (env : LoadEnv)
    (dec : List (Nat × DecompEntry)) (dumps : List (Nat × DumpEntry))
    (pre : List RawEntry) (raw : RawEntry) (dump : DumpEntry)
    (decomp : DecompEntry) (s2 : P4) (i2 : Nat) (raw2 : RawEntry)
    (hf : (LoadPrecompiledShader env dec dumps pre.enum P4.start).failed =
      false)
    (ha : (LoadPrecompiledShader env dec dumps pre.enum P4.start).aborted =
      false)
    (hh : raw.uid = GetUniqueIdentifier env.computeHash64 env.hashCombine
      raw.regs raw.code)
    (hd : assocFind raw.uid dumps = some dump)
    (hdec : assocFind raw.uid dec = some decomp)
    (htype : raw.ptype = ProgramType.VS)
    (hsan : decomp.sanitize_mul ≠ env.accurateMul)
    (hf2 : s2.failed = false) (ha2 : s2.aborted = false)
    (hh2 : raw2.uid = GetUniqueIdentifier env.computeHash64 env.hashCombine
      raw2.regs raw2.code)
    (hmiss2 : assocFind raw2.uid dumps = none ∨
      assocFind raw2.uid dec = none) :
    LoadPrecompiledShader env dec dumps (pre ++ [raw]).enum P4.start =
      { LoadPrecompiledShader env dec dumps pre.enum P4.start with
        processed :=
          (LoadPrecompiledShader env dec dumps pre.enum P4.start).processed + 1 } ∧
    LoadPrecompiledShaderStep env dec dumps s2 (i2, raw2) =
      { s2 with processed := s2.processed + 1,
                queued := s2.queued ++ [i2] } := by
  constructor
  · rw [List.enum_append]
    unfold LoadPrecompiledShader at hf ha ⊢
    rw [List.foldl_append, List.enumFrom_cons, List.foldl_cons]
    rw [LoadPrecompiledShaderStep_sanitize_skip env dec dumps _ pre.length
      raw dump decomp hf ha hh hd hdec htype hsan]
    rfl
  · exact LoadPrecompiledShaderStep_queue env dec dumps s2 i2 raw2 hf2 ha2
      hh2 hmiss2

/-- Witness for c3_sanitize_mismatch_skips_without_queueing at the
concrete sanitize-mismatch store, with the queueing side exercised on an
entry missing from the dump store. -/
theorem c3_sanitize_mismatch_skips_without_queueing_witness :
    LoadPrecompiledShader loadEnvSep decompStoreC3 dumpStoreC3
      ([] ++ [rawVSMismatch]).enum P4.start =
      { LoadPrecompiledShader loadEnvSep decompStoreC3 dumpStoreC3
          (List.enum ([] : List RawEntry)) P4.start with
        processed :=
          (LoadPrecompiledShader loadEnvSep decompStoreC3 dumpStoreC3
            (List.enum ([] : List RawEntry)) P4.start).processed + 1 } ∧
    LoadPrecompiledShaderStep loadEnvSep decompStoreC3 dumpStoreC3 P4.start
      (0, rawPlain) =
      { P4.start with processed := P4.start.processed + 1,
                      queued := P4.start.queued ++ [0] } :=
  c3_sanitize_mismatch_skips_without_queueing loadEnvSep decompStoreC3
    dumpStoreC3 [] rawVSMismatch
    { binary_format := 5, binary := [9] }
    { result_code := "dv", sanitize_mul := false }
    P4.start 0 rawPlain
    rfl rfl (by decide) (by decide) (by decide) rfl (by decide)
    rfl rfl (by decide) (Or.inl (by decide))

/-- Counterexample to C3 as stated: the vertex entry whose sanitize flag
differs from the active mode is skipped (nothing is invalidated, nothing
fails), yet its index is NOT queued for the slow-path rebuild — the queue
and the slow path stay empty. -/
theorem c3_counterexample :
    (LoadDiskCache loadEnvSep [rawVSMismatch] decompStoreC3
        dumpStoreC3).p4.queued = [] ∧
    (LoadDiskCache loadEnvSep [rawVSMismatch] decompStoreC3
        dumpStoreC3).p4.processed = 1 ∧
    (LoadDiskCache loadEnvSep [rawVSMismatch] decompStoreC3
        dumpStoreC3).p4.invalidateAll = 0 ∧
    (LoadDiskCache loadEnvSep [rawVSMismatch] decompStoreC3
        dumpStoreC3).p4.failed = false ∧
    (LoadDiskCache loadEnvSep [rawVSMismatch] decompStoreC3
        dumpStoreC3).slowPath = [] := by
  decide

/-- C7 (amended): the virtual precompiled file is serialized back to
storage exactly once when the platform is separable and the store was
altered during loading, and never otherwise — in particular, on a
non-separable platform the early return before the rebuild phase skips
serialization even when a rejected dump has just invalidated the
precompiled store and marked it altered. -/
theorem c7_serialize_iff_separable_and_altered (env : LoadEnv)
    (raws : List RawEntry) (dec : List (Nat × DecompEntry))
    (dumps : List (Nat × DumpEntry)) :
    (LoadDiskCache env raws dec dumps).savePrecompiledCount =
      if env.separable = true ∧
          (LoadDiskCache env raws dec dumps).altered = true
      then 1 else 0 := by
  unfold LoadDiskCache
  cases hsep : env.separable with
  | false => simp
  | true => simp

/-- Counterexample to C7 as stated: on a non-separable platform a rejected
dump invalidates the precompiled store and marks it altered, yet the store
is serialized zero times, not exactly once. -/
theorem c7_counterexample :
    (LoadDiskCache loadEnvNonSepReject [] decompStoreC7 dumpStoreC7).altered =
      true ∧
    (LoadDiskCache loadEnvNonSepReject [] decompStoreC7
        dumpStoreC7).invalidatePrecompiled = 1 ∧
    (LoadDiskCache loadEnvNonSepReject [] decompStoreC7
        dumpStoreC7).savePrecompiledCount = 0 := by
  decide

end GLShaderManager
